import Mathlib

/-!
Shallow embedding of the `docker-experiments` repository (two Python source
variants of the same program):

* `src/copy-on-host/wineinger.py`    — function `copy_file_via_docker` (here `_w`)
* `src/copy_on_host/copy_on_host.py` — function `copy_file_via_docker` (here `_c`)

Both drive a Docker engine client through pull → create_container → start →
wait → logs, translating host-absolute paths under the in-container mount
point `/mnt/host`.  The engine client is modelled as an explicit record of
stateful operations (state type `σ` threaded through each call); a raised
Python exception from an engine call is modelled as `Except.error`, and the
`KeyError` that dict access in the copy_on_host pull loop can raise is a
distinct error constructor.  Printing and logging are pure observation and
are not modelled; the pull stream is modelled as the list of already
JSON-parsed event objects.
-/

namespace DockerCopy

/-- Python `s[n:]` on a string: drop the first `n` characters. -/
def pyDrop (s : String) (n : Nat) : String := ⟨s.data.drop n⟩

/-- Python `s.lstrip("/")`: drop every leading `'/'` character. -/
def pyLstripSlash (s : String) : String := ⟨s.data.dropWhile (· == '/')⟩

/-- The ASCII whitespace characters stripped by Python `str.strip()`. -/
def pyWhitespaceChar (c : Char) : Bool :=
  c == ' ' || c == '\t' || c == '\n' || c == '\r' || c == '\x0b' || c == '\x0c'

/-- Python `s.strip()`: remove leading and trailing whitespace. -/
def pyStrip (s : String) : String :=
  ⟨((s.data.dropWhile pyWhitespaceChar).reverse.dropWhile pyWhitespaceChar).reverse⟩

/-- Python `s.startswith(t)`. -/
def pyStartsWith (s t : String) : Bool := t.data.isPrefixOf s.data

/-- Python `s.endswith(t)`. -/
def pyEndsWith (s t : String) : Bool := t.data.isSuffixOf s.data

/-- Python `s.lower()` (ASCII case mapping, which is all the program compares). -/
def pyLower (s : String) : String := ⟨s.data.map Char.toLower⟩

/-- CPython `posixpath.join` restricted to two arguments, exactly as the
library implements it: an absolute second argument replaces the first,
otherwise the parts are glued with a single `'/'` unless the first part is
empty or already ends in `'/'`. -/
def osPathJoin (path b : String) : String :=
  if pyStartsWith b "/" then b
  else if path == "" || pyEndsWith path "/" then path ++ b
  else path ++ "/" ++ b

/-- `host_path = '/'` — the host directory bound into the container
(both variants, lines 34 / 185). -/
def host_path : String := "/"

/-- `mount_point = '/mnt/host'` — the in-container mount point
(both variants, lines 35 / 186). -/
def mount_point : String := "/mnt/host"

/-- Path translation of `wineinger.py` line 39/40:
`os.path.join(mount_point, p[1:])`. -/
def translate_w (hostPath : String) : String :=
  osPathJoin mount_point (pyDrop hostPath 1)

/-- Path translation of `copy_on_host.py` lines 194/196:
`os.path.join(mount_point, p.lstrip("/"))`. -/
def translate_c (hostPath : String) : String :=
  osPathJoin mount_point (pyLstripSlash hostPath)

/-- One already-parsed JSON object from the engine's pull stream
(`json.loads(line)` in both variants).  A real Docker progress event carries
a `status` (and optionally `id` and `progress`); a failure event carries an
`error` field and no `status`.  `none` models an absent dictionary key. -/
structure PullEvent where
  status : Option String
  id : Option String
  progress : Option String
  error : Option String
deriving DecidableEq

/-- An exception raised by an engine call (docker-py raises on API failure);
the orchestrators never catch it, so it only carries an opaque message. -/
structure EngineError where
  msg : String
deriving DecidableEq

/-- The dictionary returned by `client.create_container` (the execution
handle); `copy_on_host.py` reads its `Id` key. -/
structure Container where
  Id : String
deriving DecidableEq

/-- An exception escaping `copy_file_via_docker`: either an engine exception
propagating through, or a Python `KeyError` (with the missing key) raised by
dict access inside the copy_on_host pull loop. -/
inductive PyError where
  | engine (e : EngineError)
  | keyError (key : String)
deriving DecidableEq

/-- The 3-tuple `(exit_code, stdout, stderr)` returned by
`copy_file_via_docker` in both variants. -/
structure TransferResult where
  exitCode : Int
  stdout : String
  stderr : String
deriving DecidableEq

/-- One observable engine call, with the arguments the orchestrator passed. -/
inductive EngineOp where
  | pull (image : String)
  | create (image : String) (command : List String) (volumes : List String)
  | start (containerId : String) (bindHost bindContainer : String) (ro : Bool)
  | wait (containerId : String)
  | logs (containerId : String) (stdout stderr : Bool)
deriving DecidableEq

/-- The docker client consumed by the orchestrators, as a record of stateful
operations: each call takes the engine state, returns the next state and
either a value or a raised exception.  `start` takes the single bind entry
`{host_path: {'bind': mount_point, 'ro': False}}` as a triple. -/
structure Engine (σ : Type) where
  pull : σ → String → σ × Except EngineError (List PullEvent)
  create_container : σ → String → List String → List String → σ × Except EngineError Container
  start : σ → Container → String × String × Bool → σ × Except EngineError Unit
  wait : σ → Container → σ × Except EngineError Int
  logs : σ → Container → Bool → Bool → σ × Except EngineError String

instance {ε α : Type} [DecidableEq ε] [DecidableEq α] : DecidableEq (Except ε α) := fun a b =>
  match a, b with
  | .ok x, .ok y => decidable_of_iff (x = y) (by simp)
  | .ok _, .error _ => isFalse (by simp)
  | .error _, .ok _ => isFalse (by simp)
  | .error e, .error f => decidable_of_iff (e = f) (by simp)

/-- Everything observable about one invocation of `copy_file_via_docker`:
the sequence of engine calls made, the final engine state, and either the
returned `(exit_code, stdout, stderr)` or the exception that escaped. -/
structure RunOutcome (σ : Type) where
  trace : List EngineOp
  state : σ
  result : Except PyError TransferResult
deriving DecidableEq

/-- The body of the pull loop of `copy_on_host.py` lines 173-180, iterated
over the stream.  Each iteration reads `data['status']` (a `KeyError` when
absent); when the status is `'downloading'` it also reads `data['id']` and
`data['progress']` eagerly as logging arguments (a `KeyError` when either is
absent); the `elif 'id' in data` and `else` branches only re-read keys that
are known to be present.  Logging itself is unmodelled observation. -/
def processEvents_c : List PullEvent → Except PyError Unit
  | [] => .ok ()
  | e :: rest =>
    match e.status with
    | none => .error (.keyError "status")
    | some st =>
      if pyLower st == "downloading" then
        match e.id, e.progress with
        | some _, some _ => processEvents_c rest
        | none, _ => .error (.keyError "id")
        | some _, none => .error (.keyError "progress")
      else processEvents_c rest

/-- `copy_file_via_docker` of `src/copy-on-host/wineinger.py` (lines 10-60).
The pull loop only `print`s each parsed event, so it cannot fail on a parsed
stream; the command is `["cp", src, dest]`; stderr is fetched before stdout
(lines 57-58); both log results are `.strip()`ped. -/
def copy_file_via_docker_w {σ : Type} (client : Engine σ)
    (image_name src_path dest_path : String) (s0 : σ) : RunOutcome σ :=
  let pullStep := client.pull s0 image_name
  let s1 := pullStep.1
  match pullStep.2 with
  | .error e => ⟨[.pull image_name], s1, .error (.engine e)⟩
  | .ok _lines =>
    let src := translate_w src_path
    let dest := translate_w dest_path
    let cmd := ["cp", src, dest]
    let createStep := client.create_container s1 image_name cmd [mount_point]
    let s2 := createStep.1
    match createStep.2 with
    | .error e =>
      ⟨[.pull image_name, .create image_name cmd [mount_point]], s2, .error (.engine e)⟩
    | .ok container =>
      let startStep := client.start s2 container (host_path, mount_point, false)
      let s3 := startStep.1
      match startStep.2 with
      | .error e =>
        ⟨[.pull image_name, .create image_name cmd [mount_point],
          .start container.Id host_path mount_point false], s3, .error (.engine e)⟩
      | .ok _ =>
        let waitStep := client.wait s3 container
        let s4 := waitStep.1
        match waitStep.2 with
        | .error e =>
          ⟨[.pull image_name, .create image_name cmd [mount_point],
            .start container.Id host_path mount_point false, .wait container.Id],
           s4, .error (.engine e)⟩
        | .ok exit_code =>
          let errStep := client.logs s4 container false true
          let s5 := errStep.1
          match errStep.2 with
          | .error e =>
            ⟨[.pull image_name, .create image_name cmd [mount_point],
              .start container.Id host_path mount_point false, .wait container.Id,
              .logs container.Id false true], s5, .error (.engine e)⟩
          | .ok rawStderr =>
            let outStep := client.logs s5 container true false
            let s6 := outStep.1
            match outStep.2 with
            | .error e =>
              ⟨[.pull image_name, .create image_name cmd [mount_point],
                .start container.Id host_path mount_point false, .wait container.Id,
                .logs container.Id false true, .logs container.Id true false],
               s6, .error (.engine e)⟩
            | .ok rawStdout =>
              ⟨[.pull image_name, .create image_name cmd [mount_point],
                .start container.Id host_path mount_point false, .wait container.Id,
                .logs container.Id false true, .logs container.Id true false],
               s6, .ok ⟨exit_code, pyStrip rawStdout, pyStrip rawStderr⟩⟩

/-- `copy_file_via_docker` of `src/copy_on_host/copy_on_host.py`
(lines 158-224).  The pull loop body can raise `KeyError`
(`processEvents_c`); the command is `["cp", "-v", src, dest]` (line 200);
stdout is fetched before stderr (lines 220-222); both are `.strip()`ped. -/
def copy_file_via_docker_c {σ : Type} (client : Engine σ)
    (image_name src_path dest_path : String) (s0 : σ) : RunOutcome σ :=
  let pullStep := client.pull s0 image_name
  let s1 := pullStep.1
  match pullStep.2 with
  | .error e => ⟨[.pull image_name], s1, .error (.engine e)⟩
  | .ok lines =>
    match processEvents_c lines with
    | .error err => ⟨[.pull image_name], s1, .error err⟩
    | .ok _ =>
      let src := translate_c src_path
      let dest := translate_c dest_path
      let cmd := ["cp", "-v", src, dest]
      let createStep := client.create_container s1 image_name cmd [mount_point]
      let s2 := createStep.1
      match createStep.2 with
      | .error e =>
        ⟨[.pull image_name, .create image_name cmd [mount_point]], s2, .error (.engine e)⟩
      | .ok container =>
        let startStep := client.start s2 container (host_path, mount_point, false)
        let s3 := startStep.1
        match startStep.2 with
        | .error e =>
          ⟨[.pull image_name, .create image_name cmd [mount_point],
            .start container.Id host_path mount_point false], s3, .error (.engine e)⟩
        | .ok _ =>
          let waitStep := client.wait s3 container
          let s4 := waitStep.1
          match waitStep.2 with
          | .error e =>
            ⟨[.pull image_name, .create image_name cmd [mount_point],
              .start container.Id host_path mount_point false, .wait container.Id],
             s4, .error (.engine e)⟩
          | .ok exit_code =>
            let outStep := client.logs s4 container true false
            let s5 := outStep.1
            match outStep.2 with
            | .error e =>
              ⟨[.pull image_name, .create image_name cmd [mount_point],
                .start container.Id host_path mount_point false, .wait container.Id,
                .logs container.Id true false], s5, .error (.engine e)⟩
            | .ok rawStdout =>
              let errStep := client.logs s5 container false true
              let s6 := errStep.1
              match errStep.2 with
              | .error e =>
                ⟨[.pull image_name, .create image_name cmd [mount_point],
                  .start container.Id host_path mount_point false, .wait container.Id,
                  .logs container.Id true false, .logs container.Id false true],
                 s6, .error (.engine e)⟩
              | .ok rawStderr =>
                ⟨[.pull image_name, .create image_name cmd [mount_point],
                  .start container.Id host_path mount_point false, .wait container.Id,
                  .logs container.Id true false, .logs container.Id false true],
                 s6, .ok ⟨exit_code, pyStrip rawStdout, pyStrip rawStderr⟩⟩

/-- A deterministic engine: every operation's answer is a pure function of
its arguments, independent of any engine state. -/
structure PureEngine where
  pullR : String → Except EngineError (List PullEvent)
  createR : String → List String → List String → Except EngineError Container
  startR : Container → String × String × Bool → Except EngineError Unit
  waitR : Container → Except EngineError Int
  logsR : Container → Bool → Bool → Except EngineError String

/-- View a deterministic engine as a stateful engine over any state type:
each call leaves the state unchanged and answers purely. -/
def PureEngine.toEngine (pe : PureEngine) (σ : Type) : Engine σ where
  pull := fun s a => (s, pe.pullR a)
  create_container := fun s i c v => (s, pe.createR i c v)
  start := fun s c b => (s, pe.startR c b)
  wait := fun s c => (s, pe.waitR c)
  logs := fun s c so se => (s, pe.logsR c so se)

/-- A deterministic mock engine: the pull stream, exit code, stdout and
stderr are fixed; container creation always yields handle `"c0"`. -/
def mockEngine (events : List PullEvent) (code : Int) (out err : String) : PureEngine where
  pullR := fun _ => .ok events
  createR := fun _ _ _ => .ok ⟨"c0"⟩
  startR := fun _ _ => .ok ()
  waitR := fun _ => .ok code
  logsR := fun _ so _ => .ok (if so then out else err)

/-- The stdout/stderr flag pairs of the log-fetching calls of a trace, in
call order. -/
def logCalls : List EngineOp → List (Bool × Bool)
  | [] => []
  | .logs _ so se :: rest => (so, se) :: logCalls rest
  | _ :: rest => logCalls rest

/-- The deterministic mock engine as a stateful client over `Unit`. -/
def mockClient (events : List PullEvent) (code : Int) (out err : String) : Engine Unit :=
  (mockEngine events code out err).toEngine Unit

/-- A client whose pull call raises (image not found, registry unreachable);
all later operations would succeed, but are never reached. -/
def pullFailClient (msg : String) : Engine Unit where
  pull := fun s _ => (s, .error ⟨msg⟩)
  create_container := fun s _ _ _ => (s, .ok ⟨"c0"⟩)
  start := fun s _ _ => (s, .ok ())
  wait := fun s _ => (s, .ok 0)
  logs := fun s _ _ _ => (s, .ok "")

/-- A host path beginning with exactly one leading separator character:
first character `'/'`, second character (if any) not `'/'`. -/
def oneLeadingSep (s : String) : Bool :=
  s.data.head? == some '/' && !(s.data.tail.head? == some '/')

/-- Characterization of a wineinger run in which every engine call succeeds:
the full call trace in order, the final engine state, and the stripped
result tuple. -/
theorem run_w_ok {σ : Type} (client : Engine σ) (i sp dp : String)
    (s0 s1 s2 s3 s4 s5 s6 : σ) (evs : List PullEvent) (c : Container)
    (code : Int) (rawErr rawOut : String)
    (hp : client.pull s0 i = (s1, .ok evs))
    (hc : client.create_container s1 i ["cp", translate_w sp, translate_w dp] [mount_point]
            = (s2, .ok c))
    (hs : client.start s2 c (host_path, mount_point, false) = (s3, .ok ()))
    (hw : client.wait s3 c = (s4, .ok code))
    (he : client.logs s4 c false true = (s5, .ok rawErr))
    (ho : client.logs s5 c true false = (s6, .ok rawOut)) :
    copy_file_via_docker_w client i sp dp s0 =
      ⟨[.pull i, .create i ["cp", translate_w sp, translate_w dp] [mount_point],
        .start c.Id host_path mount_point false, .wait c.Id,
        .logs c.Id false true, .logs c.Id true false], s6,
       .ok ⟨code, pyStrip rawOut, pyStrip rawErr⟩⟩ := by
  simp [copy_file_via_docker_w, hp, hc, hs, hw, he, ho]

/-- Characterization of a copy_on_host run in which the pull loop processes
every event without a `KeyError` and every engine call succeeds. -/
theorem run_c_ok {σ : Type} (client : Engine σ) (i sp dp : String)
    (s0 s1 s2 s3 s4 s5 s6 : σ) (evs : List PullEvent) (c : Container)
    (code : Int) (rawErr rawOut : String)
    (hp : client.pull s0 i = (s1, .ok evs))
    (hl : processEvents_c evs = .ok ())
    (hc : client.create_container s1 i ["cp", "-v", translate_c sp, translate_c dp] [mount_point]
            = (s2, .ok c))
    (hs : client.start s2 c (host_path, mount_point, false) = (s3, .ok ()))
    (hw : client.wait s3 c = (s4, .ok code))
    (ho : client.logs s4 c true false = (s5, .ok rawOut))
    (he : client.logs s5 c false true = (s6, .ok rawErr)) :
    copy_file_via_docker_c client i sp dp s0 =
      ⟨[.pull i, .create i ["cp", "-v", translate_c sp, translate_c dp] [mount_point],
        .start c.Id host_path mount_point false, .wait c.Id,
        .logs c.Id true false, .logs c.Id false true], s6,
       .ok ⟨code, pyStrip rawOut, pyStrip rawErr⟩⟩ := by
  simp [copy_file_via_docker_c, hp, hl, hc, hs, hw, he, ho]

/-- A raised pull call aborts the wineinger run before any other engine
call; the exception propagates. -/
theorem run_w_pull_error {σ : Type} (client : Engine σ) (i sp dp : String)
    (s0 s1 : σ) (e : EngineError) (hp : client.pull s0 i = (s1, .error e)) :
    copy_file_via_docker_w client i sp dp s0 = ⟨[.pull i], s1, .error (.engine e)⟩ := by
  simp [copy_file_via_docker_w, hp]

/-- A raised pull call aborts the copy_on_host run before any other engine
call; the exception propagates. -/
theorem run_c_pull_error {σ : Type} (client : Engine σ) (i sp dp : String)
    (s0 s1 : σ) (e : EngineError) (hp : client.pull s0 i = (s1, .error e)) :
    copy_file_via_docker_c client i sp dp s0 = ⟨[.pull i], s1, .error (.engine e)⟩ := by
  simp [copy_file_via_docker_c, hp]

/-- A `KeyError` in the copy_on_host pull loop aborts the run after the pull
call and before any other engine call. -/
theorem run_c_loop_error {σ : Type} (client : Engine σ) (i sp dp : String)
    (s0 s1 : σ) (evs : List PullEvent) (err : PyError)
    (hp : client.pull s0 i = (s1, .ok evs))
    (hl : processEvents_c evs = .error err) :
    copy_file_via_docker_c client i sp dp s0 = ⟨[.pull i], s1, .error err⟩ := by
  simp [copy_file_via_docker_c, hp, hl]

/-- Against a deterministic engine, the trace and result of a wineinger run
do not depend on the engine state the run starts from. -/
theorem run_w_pure_state {σ : Type} (pe : PureEngine) (i sp dp : String) (st st' : σ) :
    (copy_file_via_docker_w (pe.toEngine σ) i sp dp st).trace
        = (copy_file_via_docker_w (pe.toEngine σ) i sp dp st').trace ∧
    (copy_file_via_docker_w (pe.toEngine σ) i sp dp st).result
        = (copy_file_via_docker_w (pe.toEngine σ) i sp dp st').result := by
  simp only [copy_file_via_docker_w, PureEngine.toEngine]
  rcases hp : pe.pullR i with e | evs <;> simp only [hp]
  · simp
  · rcases hc : pe.createR i ["cp", translate_w sp, translate_w dp] [mount_point] with e | c <;>
      simp only [hc]
    · simp
    · rcases hs : pe.startR c (host_path, mount_point, false) with e | u <;> simp only [hs]
      · simp
      · rcases hw : pe.waitR c with e | code <;> simp only [hw]
        · simp
        · rcases he : pe.logsR c false true with e | rawErr <;> simp only [he]
          · simp
          · rcases ho : pe.logsR c true false with e | rawOut <;> simp only [ho] <;> simp

/-- Against a deterministic engine, the trace and result of a copy_on_host
run do not depend on the engine state the run starts from. -/
theorem run_c_pure_state {σ : Type} (pe : PureEngine) (i sp dp : String) (st st' : σ) :
    (copy_file_via_docker_c (pe.toEngine σ) i sp dp st).trace
        = (copy_file_via_docker_c (pe.toEngine σ) i sp dp st').trace ∧
    (copy_file_via_docker_c (pe.toEngine σ) i sp dp st).result
        = (copy_file_via_docker_c (pe.toEngine σ) i sp dp st').result := by
  simp only [copy_file_via_docker_c, PureEngine.toEngine]
  rcases hp : pe.pullR i with e | evs <;> simp only [hp]
  · simp
  · rcases hl : processEvents_c evs with err | u <;> simp only [hl]
    · simp
    · rcases hc : pe.createR i ["cp", "-v", translate_c sp, translate_c dp] [mount_point]
        with e | c <;> simp only [hc]
      · simp
      · rcases hs : pe.startR c (host_path, mount_point, false) with e | u <;> simp only [hs]
        · simp
        · rcases hw : pe.waitR c with e | code <;> simp only [hw]
          · simp
          · rcases ho : pe.logsR c true false with e | rawOut <;> simp only [ho]
            · simp
            · rcases he : pe.logsR c false true with e | rawErr <;> simp only [he] <;> simp

/-- The field of a string literal built from an explicit character list. -/
theorem data_mk (l : List Char) : (⟨l⟩ : String).data = l := rfl

/-- Two strings with the same character list are equal. -/
theorem string_data_inj {s t : String} (h : s.data = t.data) : s = t := by
  cases s; cases t; exact congrArg String.mk h

/-- String concatenation concatenates the character lists. -/
theorem data_append (a b : String) : (a ++ b).data = a.data ++ b.data := rfl

/-- The empty string does not start with a slash. -/
theorem pyStartsWith_slash_nil : pyStartsWith ⟨[]⟩ "/" = false := rfl

/-- A nonempty string starts with `"/"` exactly when its first character is
a slash. -/
theorem pyStartsWith_slash_cons (c : Char) (cs : List Char) :
    pyStartsWith ⟨c :: cs⟩ "/" = (c == '/') := by
  by_cases hc : c = '/'
  · subst hc
    show List.isPrefixOf ['/'] ('/' :: cs) = ('/' == '/')
    simp [List.isPrefixOf]
  · have h1 : (c == '/') = false := by simp [hc]
    have h2 : ('/' == c) = false := by
      simp only [beq_eq_false_iff_ne, ne_eq]
      exact fun hh => hc hh.symm
    show List.isPrefixOf ['/'] (c :: cs) = (c == '/')
    simp [List.isPrefixOf, h1, h2]

/-- Destructuring characterization of `oneLeadingSep`. -/
theorem oneLeadingSep_iff (p : String) :
    oneLeadingSep p = true ↔ ∃ cs, p.data = '/' :: cs ∧ cs.head? ≠ some '/' := by
  obtain ⟨d⟩ := p
  cases d with
  | nil => simp [oneLeadingSep]
  | cons c cs =>
    simp only [oneLeadingSep, data_mk, List.head?_cons, List.tail_cons, Bool.and_eq_true,
      beq_iff_eq, Option.some.injEq, Bool.not_eq_true', beq_eq_false_iff_ne, ne_eq]
    constructor
    · rintro ⟨rfl, h2⟩
      exact ⟨cs, rfl, by simpa using h2⟩
    · rintro ⟨cs', hd, hh⟩
      rw [List.cons.injEq] at hd
      obtain ⟨rfl, rfl⟩ := hd
      exact ⟨rfl, by simpa using hh⟩

/-- After dropping every leading slash, the remainder does not start with a
slash. -/
theorem dropWhile_slash_head (l : List Char) :
    (l.dropWhile (· == '/')).head? ≠ some '/' := by
  induction l with
  | nil => simp
  | cons c cs ih =>
    by_cases hc : c = '/'
    · have hb : (c == '/') = true := by simp [hc]
      simpa [List.dropWhile, hb] using ih
    · have hb : (c == '/') = false := by simp [hc]
      simp [List.dropWhile, hb, hc]

/-- Dropping leading slashes from a list that does not start with a slash is
the identity. -/
theorem dropWhile_of_head_ne {cs : List Char} (h : cs.head? ≠ some '/') :
    cs.dropWhile (· == '/') = cs := by
  cases cs with
  | nil => rfl
  | cons c cs' =>
    have hb : (c == '/') = false := by
      simp only [beq_eq_false_iff_ne, ne_eq]
      intro hh
      exact h (by simp [hh])
    simp [List.dropWhile, hb]

/-- `os.path.join` drops the mount point entirely when its second argument
is absolute — the pitfall the sources work around. -/
theorem osPathJoin_mp_abs {b : String} (hb : pyStartsWith b "/" = true) :
    osPathJoin mount_point b = b := by
  simp [osPathJoin, hb]

/-- `os.path.join` glues a non-absolute second argument onto the mount
point with one separator. -/
theorem osPathJoin_mp_rel {b : String} (hb : pyStartsWith b "/" = false) :
    osPathJoin mount_point b = mount_point ++ "/" ++ b := by
  unfold osPathJoin
  rw [hb]
  rw [show (mount_point == "" || pyEndsWith mount_point "/") = false from rfl]
  simp

/-- A string whose character list does not begin with a slash does not
start with `"/"`. -/
theorem startsWith_slash_of_head_ne {cs : List Char} (hh : cs.head? ≠ some '/') :
    pyStartsWith ⟨cs⟩ "/" = false := by
  cases cs with
  | nil => exact pyStartsWith_slash_nil
  | cons c cs' =>
    rw [pyStartsWith_slash_cons]
    simpa using hh

/-- On a path with exactly one leading separator, the wineinger translation
is the mount point, one separator, and the path minus its first character. -/
theorem translate_w_oneSep {p : String} (h : oneLeadingSep p = true) :
    translate_w p = mount_point ++ "/" ++ pyDrop p 1 := by
  obtain ⟨cs, hd, hh⟩ := (oneLeadingSep_iff p).mp h
  have hdrop : pyDrop p 1 = ⟨cs⟩ := by simp [pyDrop, hd]
  rw [translate_w, hdrop]
  exact osPathJoin_mp_rel (startsWith_slash_of_head_ne hh)

/-- On a path with exactly one leading separator, the copy_on_host
translation coincides with the wineinger one. -/
theorem translate_c_oneSep {p : String} (h : oneLeadingSep p = true) :
    translate_c p = mount_point ++ "/" ++ pyDrop p 1 := by
  obtain ⟨cs, hd, hh⟩ := (oneLeadingSep_iff p).mp h
  have hdrop : pyDrop p 1 = ⟨cs⟩ := by simp [pyDrop, hd]
  have hcons : List.dropWhile (· == '/') ('/' :: cs) = List.dropWhile (· == '/') cs := by
    simp [List.dropWhile]
  have hstrip : pyLstripSlash p = ⟨cs⟩ := by
    simp only [pyLstripSlash, hd, hcons, dropWhile_of_head_ne hh]
  rw [translate_c, hstrip, ← hdrop]
  rw [hdrop]
  exact osPathJoin_mp_rel (startsWith_slash_of_head_ne hh)

/-- Character list of the mount point, a separator, and a remainder. -/
theorem join_data (b : String) :
    (mount_point ++ "/" ++ b).data
      = '/' :: 'm' :: 'n' :: 't' :: '/' :: 'h' :: 'o' :: 's' :: 't' :: '/' :: b.data := rfl

/-- A list is a `isPrefixOf`-prefix of itself followed by anything. -/
theorem isPrefixOf_append_self (l t : List Char) : l.isPrefixOf (l ++ t) = true := by
  induction l with
  | nil => simp [List.isPrefixOf]
  | cons c cs ih => simp [List.isPrefixOf, ih]

/-- A joined path starts with the mount point. -/
theorem startsWith_mp_join (b : String) :
    pyStartsWith (mount_point ++ "/" ++ b) mount_point = true := by
  show List.isPrefixOf mount_point.data (mount_point ++ "/" ++ b).data = true
  rw [join_data, show mount_point.data = ['/', 'm', 'n', 't', '/', 'h', 'o', 's', 't'] from rfl]
  exact isPrefixOf_append_self ['/', 'm', 'n', 't', '/', 'h', 'o', 's', 't'] ('/' :: b.data)

/-- Dropping the mount point and its following separator from a joined path
recovers the remainder. -/
theorem pyDrop_mp_join (b : String) :
    pyDrop (mount_point ++ "/" ++ b) (mount_point.length + 1) = b := by
  apply string_data_inj
  rw [pyDrop, data_mk, join_data]
  rfl

/-- C1 states that a request with a non-absolute source or destination path
is rejected with an `InvalidRequest` kind before any engine call.  Neither
source variant checks its paths at all: with the relative source path
`"etc/hosts"` both variants make every engine call (pull, create, start,
wait, logs) and return an ordinary result; wineinger even corrupts the path
by dropping its first character (`"tc/hosts"`).  This refutes the claim. -/
theorem C1_counterexample :
    pyStartsWith "etc/hosts" "/" = false ∧
    (copy_file_via_docker_w (mockClient [] 0 "done" "") "img" "etc/hosts" "/tmp/out" ()).trace
      = [.pull "img",
         .create "img" ["cp", "/mnt/host/tc/hosts", "/mnt/host/tmp/out"] ["/mnt/host"],
         .start "c0" "/" "/mnt/host" false, .wait "c0",
         .logs "c0" false true, .logs "c0" true false] ∧
    (copy_file_via_docker_w (mockClient [] 0 "done" "") "img" "etc/hosts" "/tmp/out" ()).result
      = .ok ⟨0, "done", ""⟩ ∧
    (copy_file_via_docker_c (mockClient [] 0 "done" "") "img" "etc/hosts" "/tmp/out" ()).trace
      = [.pull "img",
         .create "img" ["cp", "-v", "/mnt/host/etc/hosts", "/mnt/host/tmp/out"] ["/mnt/host"],
         .start "c0" "/" "/mnt/host" false, .wait "c0",
         .logs "c0" true false, .logs "c0" false true] ∧
    (copy_file_via_docker_c (mockClient [] 0 "done" "") "img" "etc/hosts" "/tmp/out" ()).result
      = .ok ⟨0, "done", ""⟩ :=
  ⟨rfl, by decide, by decide, by decide, by decide⟩

/-- C1 amended: the orchestrator performs no path validation whatsoever.
For every client, every pair of paths (absolute or not) and every state, the
very first engine action of both variants is the image pull — no rejection
of any kind precedes it. -/
theorem C1_amended {σ : Type} (client : Engine σ) (i sp dp : String) (s0 : σ) :
    (copy_file_via_docker_w client i sp dp s0).trace.head? = some (.pull i) ∧
    (copy_file_via_docker_c client i sp dp s0).trace.head? = some (.pull i) := by
  constructor
  · simp only [copy_file_via_docker_w]
    repeat' split
    all_goals rfl
  · simp only [copy_file_via_docker_c]
    repeat' split
    all_goals rfl

/-- C2 states that the host root path translates to the mount point
exactly.  In fact `os.path.join(mount_point, "")` appends a trailing
separator in both variants, so the root translates to `"/mnt/host/"`, not
`"/mnt/host"`. -/
theorem C2_counterexample :
    translate_w "/" ≠ "/mnt/host" ∧ translate_c "/" ≠ "/mnt/host" := by
  refine ⟨by decide, by decide⟩

/-- C2 amended: for the host path `"/"` and mount point `"/mnt/host"` both
translations yield the mount point followed by a trailing separator,
`"/mnt/host/"` — a trailing empty segment is appended. -/
theorem C2_amended :
    translate_w "/" = "/mnt/host/" ∧ translate_c "/" = "/mnt/host/" ∧
    translate_w "/" = mount_point ++ "/" ∧ translate_c "/" = mount_point ++ "/" :=
  ⟨by decide, by decide, by decide, by decide⟩

/-- C3 states that output retrieval is two log calls in the order
stdout-only first, then stderr-only.  The wineinger variant issues them in
the opposite order: here is a run reaching the Completed state (the result
is an ordinary tuple) whose two log calls carry the flag pairs
(stdout=false, stderr=true) and then (stdout=true, stderr=false). -/
theorem C3_counterexample :
    (copy_file_via_docker_w (mockClient [] 0 "out" "err") "img" "/a" "/b" ()).result
      = .ok ⟨0, "out", "err"⟩ ∧
    logCalls (copy_file_via_docker_w (mockClient [] 0 "out" "err") "img" "/a" "/b" ()).trace
      = [(false, true), (true, false)] ∧
    [((false : Bool), (true : Bool)), (true, false)]
      ≠ [((true : Bool), (false : Bool)), (false, true)] :=
  ⟨by decide, by decide, by decide⟩

/-- C3 amended: every run reaching the Completed state retrieves output via
two separate log calls and strips each stream, but the order differs per
variant: copy_on_host fetches stdout-only then stderr-only, wineinger
fetches stderr-only then stdout-only. -/
theorem C3_amended {σ : Type} (clientW clientC : Engine σ) (i sp dp : String)
    (s0 t0 : σ) {s1 s2 s3 s4 s5 s6 t1 t2 t3 t4 t5 t6 : σ}
    {evsW evsC : List PullEvent} {cw cc : Container} {codeW codeC : Int}
    {outW errW outC errC : String}
    (hpW : clientW.pull s0 i = (s1, .ok evsW))
    (hcW : clientW.create_container s1 i ["cp", translate_w sp, translate_w dp] [mount_point]
            = (s2, .ok cw))
    (hsW : clientW.start s2 cw (host_path, mount_point, false) = (s3, .ok ()))
    (hwW : clientW.wait s3 cw = (s4, .ok codeW))
    (heW : clientW.logs s4 cw false true = (s5, .ok errW))
    (hoW : clientW.logs s5 cw true false = (s6, .ok outW))
    (hpC : clientC.pull t0 i = (t1, .ok evsC))
    (hlC : processEvents_c evsC = .ok ())
    (hcC : clientC.create_container t1 i ["cp", "-v", translate_c sp, translate_c dp] [mount_point]
            = (t2, .ok cc))
    (hsC : clientC.start t2 cc (host_path, mount_point, false) = (t3, .ok ()))
    (hwC : clientC.wait t3 cc = (t4, .ok codeC))
    (hoC : clientC.logs t4 cc true false = (t5, .ok outC))
    (heC : clientC.logs t5 cc false true = (t6, .ok errC)) :
    logCalls (copy_file_via_docker_w clientW i sp dp s0).trace
      = [(false, true), (true, false)] ∧
    (copy_file_via_docker_w clientW i sp dp s0).result
      = .ok ⟨codeW, pyStrip outW, pyStrip errW⟩ ∧
    logCalls (copy_file_via_docker_c clientC i sp dp t0).trace
      = [(true, false), (false, true)] ∧
    (copy_file_via_docker_c clientC i sp dp t0).result
      = .ok ⟨codeC, pyStrip outC, pyStrip errC⟩ := by
  rw [run_w_ok clientW i sp dp s0 s1 s2 s3 s4 s5 s6 evsW cw codeW errW outW hpW hcW hsW hwW heW hoW,
      run_c_ok clientC i sp dp t0 t1 t2 t3 t4 t5 t6 evsC cc codeC errC outC hpC hlC hcC hsC hwC hoC heC]
  exact ⟨rfl, rfl, rfl, rfl⟩

/-- C3 witness: the amended statement at a concrete deterministic engine
whose stdout is padded with whitespace; the result strips it. -/
theorem C3_witness :
    logCalls (copy_file_via_docker_w (mockClient [] 2 " A\n" "\tB ") "img" "/a" "/b" ()).trace
      = [(false, true), (true, false)] ∧
    (copy_file_via_docker_w (mockClient [] 2 " A\n" "\tB ") "img" "/a" "/b" ()).result
      = .ok ⟨2, "A", "B"⟩ ∧
    logCalls (copy_file_via_docker_c (mockClient [] 2 " A\n" "\tB ") "img" "/a" "/b" ()).trace
      = [(true, false), (false, true)] ∧
    (copy_file_via_docker_c (mockClient [] 2 " A\n" "\tB ") "img" "/a" "/b" ()).result
      = .ok ⟨2, "A", "B"⟩ :=
  C3_amended (mockClient [] 2 " A\n" "\tB ") (mockClient [] 2 " A\n" "\tB ") "img" "/a" "/b"
    () () rfl rfl rfl rfl rfl rfl rfl rfl rfl rfl rfl rfl rfl

/-- C4 states the prefix-and-round-trip law with the root mapping exactly
to the mount point.  Both parts fail on the code: a path with a doubled
leading separator makes the wineinger translation escape the mount point
entirely (`translate_w "//etc" = "/etc"`), and the root maps to
`"/mnt/host/"`, not to the mount point. -/
theorem C4_counterexample :
    pyStartsWith "//etc" "/" = true ∧
    pyStartsWith (translate_w "//etc") mount_point = false ∧
    translate_w "/" ≠ mount_point ∧ translate_c "/" ≠ mount_point :=
  ⟨by decide, by decide, by decide, by decide⟩

/-- C4 amended: restricted to host paths with exactly one leading
separator, both translations start with the mount point, and dropping the
mount point together with its joining separator and re-adding the host root
separator reconstructs the path exactly (including for the root itself);
the root maps to the mount point plus a trailing separator, not to the
mount point. -/
theorem C4_amended (p : String) (h1 : oneLeadingSep p = true) :
    (pyStartsWith (translate_w p) mount_point = true ∧
      "/" ++ pyDrop (translate_w p) (mount_point.length + 1) = p) ∧
    (pyStartsWith (translate_c p) mount_point = true ∧
      "/" ++ pyDrop (translate_c p) (mount_point.length + 1) = p) ∧
    translate_w "/" = mount_point ++ "/" ∧ translate_c "/" = mount_point ++ "/" := by
  obtain ⟨cs, hd, hh⟩ := (oneLeadingSep_iff p).mp h1
  have hw := translate_w_oneSep h1
  have hc := translate_c_oneSep h1
  have hrt : "/" ++ pyDrop p 1 = p := by
    apply string_data_inj
    show '/' :: p.data.drop 1 = p.data
    rw [hd]
    rfl
  refine ⟨⟨?_, ?_⟩, ⟨?_, ?_⟩, by decide, by decide⟩
  · rw [hw]; exact startsWith_mp_join _
  · rw [hw, pyDrop_mp_join]; exact hrt
  · rw [hc]; exact startsWith_mp_join _
  · rw [hc, pyDrop_mp_join]; exact hrt

/-- C4 witness: the amended statement at the concrete path "/etc/hosts". -/
theorem C4_witness :
    oneLeadingSep "/etc/hosts" = true ∧
    ((pyStartsWith (translate_w "/etc/hosts") mount_point = true ∧
       "/" ++ pyDrop (translate_w "/etc/hosts") (mount_point.length + 1) = "/etc/hosts") ∧
     (pyStartsWith (translate_c "/etc/hosts") mount_point = true ∧
       "/" ++ pyDrop (translate_c "/etc/hosts") (mount_point.length + 1) = "/etc/hosts") ∧
     translate_w "/" = mount_point ++ "/" ∧ translate_c "/" = mount_point ++ "/") :=
  ⟨by decide, C4_amended "/etc/hosts" (by decide)⟩

/-- C5 states that translation strips exactly one leading separator and
joins with a single separator for every absolute host path.  With a doubled
leading separator this fails in both variants: wineinger strips one
character but the join then discards the mount point (`"/etc"`), while
copy_on_host strips both separators (`"/mnt/host/etc"`); neither equals
the single-separator join `"/mnt/host//etc"`. -/
theorem C5_counterexample :
    pyStartsWith "//etc" "/" = true ∧
    translate_w "//etc" ≠ mount_point ++ "/" ++ pyDrop "//etc" 1 ∧
    translate_c "//etc" ≠ mount_point ++ "/" ++ pyDrop "//etc" 1 ∧
    translate_w "//etc" = "/etc" ∧ translate_c "//etc" = "/mnt/host/etc" :=
  ⟨by decide, by decide, by decide, by decide, by decide⟩

/-- C5 amended: restricted to host paths with exactly one leading
separator, both variants strip that separator and join the remainder onto
the mount point with a single separator; in particular the Scenario A
examples hold in both variants. -/
theorem C5_amended (p : String) (h : oneLeadingSep p = true) :
    translate_w p = mount_point ++ "/" ++ pyDrop p 1 ∧
    translate_c p = mount_point ++ "/" ++ pyDrop p 1 ∧
    translate_w "/etc/hosts" = "/mnt/host/etc/hosts" ∧
    translate_w "/tmp/out" = "/mnt/host/tmp/out" ∧
    translate_c "/etc/hosts" = "/mnt/host/etc/hosts" ∧
    translate_c "/tmp/out" = "/mnt/host/tmp/out" :=
  ⟨translate_w_oneSep h, translate_c_oneSep h, by decide, by decide, by decide, by decide⟩

/-- C5 witness: the amended statement at the concrete path "/etc/hosts". -/
theorem C5_witness :
    oneLeadingSep "/etc/hosts" = true ∧
    (translate_w "/etc/hosts" = mount_point ++ "/" ++ pyDrop "/etc/hosts" 1 ∧
     translate_c "/etc/hosts" = mount_point ++ "/" ++ pyDrop "/etc/hosts" 1 ∧
     translate_w "/etc/hosts" = "/mnt/host/etc/hosts" ∧
     translate_w "/tmp/out" = "/mnt/host/tmp/out" ∧
     translate_c "/etc/hosts" = "/mnt/host/etc/hosts" ∧
     translate_c "/tmp/out" = "/mnt/host/tmp/out") :=
  ⟨by decide, C5_amended "/etc/hosts" (by decide)⟩

/-- C6 states that a failure event in the pull stream terminates the run
with `ImageAcquisitionFailed` and no container is ever created.  The
wineinger variant refutes this: a pull stream consisting of one failure
event (error field set, no status) is merely printed, the run proceeds to
call CreateContainer — and every later engine call — and returns an
ordinary result. -/
theorem C6_counterexample :
    (copy_file_via_docker_w (mockClient [⟨none, none, none, some "pull access denied"⟩] 0 "" "")
        "img" "/a" "/b" ()).trace
      = [.pull "img", .create "img" ["cp", "/mnt/host/a", "/mnt/host/b"] ["/mnt/host"],
         .start "c0" "/" "/mnt/host" false, .wait "c0",
         .logs "c0" false true, .logs "c0" true false] ∧
    (copy_file_via_docker_w (mockClient [⟨none, none, none, some "pull access denied"⟩] 0 "" "")
        "img" "/a" "/b" ()).result
      = .ok ⟨0, "", ""⟩ :=
  ⟨by decide, by decide⟩

/-- C6 amended: if the pull call itself raises, both variants abort with
the propagated (unclassified) engine exception and never call
CreateContainer.  A failure event inside the stream aborts only the
copy_on_host variant, and only via an incidental `KeyError` on the missing
`status` key — again before CreateContainer but without any
`ImageAcquisitionFailed` classification; the wineinger variant ignores it
entirely (see the counterexample). -/
theorem C6_amended {σ : Type} (client : Engine σ) (i sp dp : String) (s0 : σ) :
    (∀ (s1 : σ) (e : EngineError), client.pull s0 i = (s1, .error e) →
      copy_file_via_docker_w client i sp dp s0 = ⟨[.pull i], s1, .error (.engine e)⟩ ∧
      copy_file_via_docker_c client i sp dp s0 = ⟨[.pull i], s1, .error (.engine e)⟩) ∧
    (∀ (s1 : σ) (evs : List PullEvent) (err : PyError),
      client.pull s0 i = (s1, .ok evs) → processEvents_c evs = .error err →
      copy_file_via_docker_c client i sp dp s0 = ⟨[.pull i], s1, .error err⟩) ∧
    processEvents_c [⟨none, none, none, some "pull access denied"⟩]
      = .error (.keyError "status") :=
  ⟨fun s1 e hp => ⟨run_w_pull_error client i sp dp s0 s1 e hp,
                   run_c_pull_error client i sp dp s0 s1 e hp⟩,
   fun s1 evs err hp hl => run_c_loop_error client i sp dp s0 s1 evs err hp hl,
   rfl⟩

/-- C6 witness: the amended statement at a client whose pull raises, and at
a client whose pull stream holds one failure event. -/
theorem C6_witness :
    copy_file_via_docker_w (pullFailClient "registry unreachable") "img" "/a" "/b" ()
      = ⟨[.pull "img"], (), .error (.engine ⟨"registry unreachable"⟩)⟩ ∧
    copy_file_via_docker_c (pullFailClient "registry unreachable") "img" "/a" "/b" ()
      = ⟨[.pull "img"], (), .error (.engine ⟨"registry unreachable"⟩)⟩ ∧
    copy_file_via_docker_c (mockClient [⟨none, none, none, some "manifest unknown"⟩] 0 "" "")
        "img" "/a" "/b" ()
      = ⟨[.pull "img"], (), .error (.keyError "status")⟩ :=
  ⟨((C6_amended (pullFailClient "registry unreachable") "img" "/a" "/b" ()).1
      () ⟨"registry unreachable"⟩ rfl).1,
   ((C6_amended (pullFailClient "registry unreachable") "img" "/a" "/b" ()).1
      () ⟨"registry unreachable"⟩ rfl).2,
   (C6_amended (mockClient [⟨none, none, none, some "manifest unknown"⟩] 0 "" "")
      "img" "/a" "/b" ()).2.1
     () [⟨none, none, none, some "manifest unknown"⟩] (.keyError "status") rfl rfl⟩

/-- C7 states that pull-event content never alters control flow.  The
copy_on_host variant refutes this: two deterministic engines identical in
every non-pull operation, whose pull streams both hold exactly one event
differing only in content (an ordinary status event versus a failure event
with no status), produce different subsequent engine operations and a
different result — the second run dies with a `KeyError` before
CreateContainer. -/
theorem C7_counterexample :
    (mockEngine [⟨some "Pulling from library", none, none, none⟩] 0 "o" "e").createR
      = (mockEngine [⟨none, none, none, some "boom"⟩] 0 "o" "e").createR ∧
    (mockEngine [⟨some "Pulling from library", none, none, none⟩] 0 "o" "e").startR
      = (mockEngine [⟨none, none, none, some "boom"⟩] 0 "o" "e").startR ∧
    (mockEngine [⟨some "Pulling from library", none, none, none⟩] 0 "o" "e").waitR
      = (mockEngine [⟨none, none, none, some "boom"⟩] 0 "o" "e").waitR ∧
    (mockEngine [⟨some "Pulling from library", none, none, none⟩] 0 "o" "e").logsR
      = (mockEngine [⟨none, none, none, some "boom"⟩] 0 "o" "e").logsR ∧
    (copy_file_via_docker_c (mockClient [⟨some "Pulling from library", none, none, none⟩] 0 "o" "e")
        "img" "/a" "/b" ()).result
      ≠ (copy_file_via_docker_c (mockClient [⟨none, none, none, some "boom"⟩] 0 "o" "e")
        "img" "/a" "/b" ()).result ∧
    (copy_file_via_docker_c (mockClient [⟨some "Pulling from library", none, none, none⟩] 0 "o" "e")
        "img" "/a" "/b" ()).trace
      ≠ (copy_file_via_docker_c (mockClient [⟨none, none, none, some "boom"⟩] 0 "o" "e")
        "img" "/a" "/b" ()).trace :=
  ⟨rfl, rfl, rfl, rfl, by decide, by decide⟩

/-- C7 amended: both variants consume the whole pull stream before any
later engine call, and for the wineinger variant event content never
alters the run; for the copy_on_host variant the same holds only for
streams whose events all survive the loop without a `KeyError` (every event
carries a status, and downloading events also carry id and progress). -/
theorem C7_amended {σ : Type} (pe1 pe2 : PureEngine) (i sp dp : String) (st : σ)
    (hcr : pe1.createR = pe2.createR) (hsr : pe1.startR = pe2.startR)
    (hwr : pe1.waitR = pe2.waitR) (hlr : pe1.logsR = pe2.logsR)
    (evs1 evs2 : List PullEvent)
    (hp1 : pe1.pullR i = .ok evs1) (hp2 : pe2.pullR i = .ok evs2) :
    copy_file_via_docker_w (pe1.toEngine σ) i sp dp st
        = copy_file_via_docker_w (pe2.toEngine σ) i sp dp st ∧
    (processEvents_c evs1 = .ok () → processEvents_c evs2 = .ok () →
      copy_file_via_docker_c (pe1.toEngine σ) i sp dp st
        = copy_file_via_docker_c (pe2.toEngine σ) i sp dp st) := by
  constructor
  · simp only [copy_file_via_docker_w, PureEngine.toEngine, hp1, hp2, hcr, hsr, hwr, hlr]
  · intro h1 h2
    simp only [copy_file_via_docker_c, PureEngine.toEngine, hp1, hp2, h1, h2, hcr, hsr, hwr, hlr]

/-- C7 witness: the amended statement at two concrete engines whose pull
streams differ only in (well-formed) event content. -/
theorem C7_witness :
    copy_file_via_docker_w
        (mockClient [⟨some "Pulling fs layer", some "a1", none, none⟩] 0 "o" "e")
        "img" "/a" "/b" ()
      = copy_file_via_docker_w (mockClient [] 0 "o" "e") "img" "/a" "/b" () ∧
    copy_file_via_docker_c
        (mockClient [⟨some "Pulling fs layer", some "a1", none, none⟩] 0 "o" "e")
        "img" "/a" "/b" ()
      = copy_file_via_docker_c (mockClient [] 0 "o" "e") "img" "/a" "/b" () :=
  ⟨(C7_amended (mockEngine [⟨some "Pulling fs layer", some "a1", none, none⟩] 0 "o" "e")
      (mockEngine [] 0 "o" "e") "img" "/a" "/b" () rfl rfl rfl rfl
      [⟨some "Pulling fs layer", some "a1", none, none⟩] [] rfl rfl).1,
   (C7_amended (mockEngine [⟨some "Pulling fs layer", some "a1", none, none⟩] 0 "o" "e")
      (mockEngine [] 0 "o" "e") "img" "/a" "/b" () rfl rfl rfl rfl
      [⟨some "Pulling fs layer", some "a1", none, none⟩] [] rfl rfl).2 rfl rfl⟩

/-- C8: a non-zero exit code reported by the engine's wait is not treated
as an error by either variant: every run whose engine calls all succeed
returns an ordinary result carrying that exit code verbatim, with stdout
and stderr surfaced unmodified apart from whitespace stripping. -/
theorem C8_exit_code_surfaced {σ : Type} (clientW clientC : Engine σ) (i sp dp : String)
    (s0 t0 : σ) {s1 s2 s3 s4 s5 s6 t1 t2 t3 t4 t5 t6 : σ}
    {evsW evsC : List PullEvent} {cw cc : Container} {codeW codeC : Int}
    {outW errW outC errC : String}
    (_hzW : codeW ≠ 0) (_hzC : codeC ≠ 0)
    (hpW : clientW.pull s0 i = (s1, .ok evsW))
    (hcW : clientW.create_container s1 i ["cp", translate_w sp, translate_w dp] [mount_point]
            = (s2, .ok cw))
    (hsW : clientW.start s2 cw (host_path, mount_point, false) = (s3, .ok ()))
    (hwW : clientW.wait s3 cw = (s4, .ok codeW))
    (heW : clientW.logs s4 cw false true = (s5, .ok errW))
    (hoW : clientW.logs s5 cw true false = (s6, .ok outW))
    (hpC : clientC.pull t0 i = (t1, .ok evsC))
    (hlC : processEvents_c evsC = .ok ())
    (hcC : clientC.create_container t1 i ["cp", "-v", translate_c sp, translate_c dp] [mount_point]
            = (t2, .ok cc))
    (hsC : clientC.start t2 cc (host_path, mount_point, false) = (t3, .ok ()))
    (hwC : clientC.wait t3 cc = (t4, .ok codeC))
    (hoC : clientC.logs t4 cc true false = (t5, .ok outC))
    (heC : clientC.logs t5 cc false true = (t6, .ok errC)) :
    (copy_file_via_docker_w clientW i sp dp s0).result
        = .ok ⟨codeW, pyStrip outW, pyStrip errW⟩ ∧
    (copy_file_via_docker_c clientC i sp dp t0).result
        = .ok ⟨codeC, pyStrip outC, pyStrip errC⟩ := by
  rw [run_w_ok clientW i sp dp s0 s1 s2 s3 s4 s5 s6 evsW cw codeW errW outW hpW hcW hsW hwW heW hoW,
      run_c_ok clientC i sp dp t0 t1 t2 t3 t4 t5 t6 evsC cc codeC errC outC hpC hlC hcC hsC hwC hoC heC]
  exact ⟨rfl, rfl⟩

/-- C8 witness: Scenario E — exit code 1 with the `cp` diagnostic on
stderr surfaces unmodified in both variants. -/
theorem C8_witness :
    (copy_file_via_docker_w
        (mockClient [] 1 "" "cp: cannot stat '/mnt/host/missing': No such file or directory")
        "img" "/missing" "/tmp/out" ()).result
      = .ok ⟨1, "", "cp: cannot stat '/mnt/host/missing': No such file or directory"⟩ ∧
    (copy_file_via_docker_c
        (mockClient [] 1 "" "cp: cannot stat '/mnt/host/missing': No such file or directory")
        "img" "/missing" "/tmp/out" ()).result
      = .ok ⟨1, "", "cp: cannot stat '/mnt/host/missing': No such file or directory"⟩ :=
  C8_exit_code_surfaced
    (mockClient [] 1 "" "cp: cannot stat '/mnt/host/missing': No such file or directory")
    (mockClient [] 1 "" "cp: cannot stat '/mnt/host/missing': No such file or directory")
    "img" "/missing" "/tmp/out" () () (by decide) (by decide)
    rfl rfl rfl rfl rfl rfl rfl rfl rfl rfl rfl rfl rfl

/-- C9: against a deterministic engine, invoking either orchestrator a
second time with identical inputs (the second run starting from the engine
state the first run left behind) yields an identical result tuple. -/
theorem C9_idempotent {σ : Type} (pe : PureEngine) (i sp dp : String) (st : σ) :
    (copy_file_via_docker_w (pe.toEngine σ) i sp dp
        ((copy_file_via_docker_w (pe.toEngine σ) i sp dp st).state)).result
      = (copy_file_via_docker_w (pe.toEngine σ) i sp dp st).result ∧
    (copy_file_via_docker_c (pe.toEngine σ) i sp dp
        ((copy_file_via_docker_c (pe.toEngine σ) i sp dp st).state)).result
      = (copy_file_via_docker_c (pe.toEngine σ) i sp dp st).result :=
  ⟨(run_w_pure_state pe i sp dp _ st).2, (run_c_pure_state pe i sp dp _ st).2⟩

/-- C10 states that the two variants' translations agree exactly on the
paths with one leading separator and on no others.  The empty string
refutes the "no others" half: it has no leading separator, yet both
variants translate it to `"/mnt/host/"`. -/
theorem C10_counterexample :
    oneLeadingSep "" = false ∧ translate_w "" = translate_c "" ∧
    translate_w "" = "/mnt/host/" :=
  ⟨by decide, by decide, by decide⟩

/-- C10 amended: for every nonempty host path, the two variants'
translations agree exactly when the path begins with exactly one leading
separator. -/
theorem C10_amended (p : String) (hne : p ≠ "") :
    translate_w p = translate_c p ↔ oneLeadingSep p = true := by
  obtain ⟨d⟩ := p
  cases d with
  | nil => exact absurd (string_data_inj rfl) hne
  | cons c cs =>
    constructor
    · intro heq
      by_cases hc : c = '/'
      · subst hc
        by_cases h2 : cs.head? = some '/'
        · exfalso
          obtain ⟨cs2, rfl⟩ : ∃ cs2, cs = '/' :: cs2 := by
            cases cs with
            | nil => simp at h2
            | cons a l => simp at h2; exact ⟨l, by rw [h2]⟩
          have htw : translate_w ⟨'/' :: '/' :: cs2⟩ = ⟨'/' :: cs2⟩ := by
            rw [translate_w, show pyDrop ⟨'/' :: '/' :: cs2⟩ 1 = ⟨'/' :: cs2⟩ from rfl]
            exact osPathJoin_mp_abs (by rw [pyStartsWith_slash_cons]; simp)
          have htc : translate_c ⟨'/' :: '/' :: cs2⟩
              = mount_point ++ "/" ++ ⟨List.dropWhile (· == '/') cs2⟩ := by
            rw [translate_c, show pyLstripSlash ⟨'/' :: '/' :: cs2⟩
                  = ⟨List.dropWhile (· == '/') cs2⟩ from rfl]
            exact osPathJoin_mp_rel (startsWith_slash_of_head_ne (dropWhile_slash_head cs2))
          rw [htw, htc] at heq
          have hdata := congrArg String.data heq
          rw [data_mk, join_data, data_mk] at hdata
          rw [List.cons.injEq] at hdata
          have hdata2 := hdata.2
          have hhead : cs2.head? = some 'm' := by rw [hdata2]; rfl
          have hdw : List.dropWhile (· == '/') cs2 = cs2 :=
            dropWhile_of_head_ne (by rw [hhead]; simp)
          rw [hdw] at hdata2
          have hlen := congrArg List.length hdata2
          simp at hlen
          omega
        · exact (oneLeadingSep_iff _).mpr ⟨cs, rfl, h2⟩
      · exfalso
        have hcb : (c == '/') = false := by simp [hc]
        have htc : translate_c ⟨c :: cs⟩ = mount_point ++ "/" ++ ⟨c :: cs⟩ := by
          rw [translate_c, show pyLstripSlash ⟨c :: cs⟩
                = ⟨List.dropWhile (· == '/') (c :: cs)⟩ from rfl,
              dropWhile_of_head_ne (by simp [hc])]
          exact osPathJoin_mp_rel (by rw [pyStartsWith_slash_cons, hcb])
        have hdropc : pyDrop ⟨c :: cs⟩ 1 = ⟨cs⟩ := rfl
        by_cases h3 : cs.head? = some '/'
        · obtain ⟨cs2, rfl⟩ : ∃ cs2, cs = '/' :: cs2 := by
            cases cs with
            | nil => simp at h3
            | cons a l => simp at h3; exact ⟨l, by rw [h3]⟩
          have htw : translate_w ⟨c :: '/' :: cs2⟩ = ⟨'/' :: cs2⟩ := by
            rw [translate_w, show pyDrop ⟨c :: '/' :: cs2⟩ 1 = ⟨'/' :: cs2⟩ from rfl]
            exact osPathJoin_mp_abs (by rw [pyStartsWith_slash_cons]; simp)
          rw [htw, htc] at heq
          have hlen := congrArg (fun s => s.data.length) heq
          simp only [data_mk, join_data, List.length_cons] at hlen
          omega
        · have htw : translate_w ⟨c :: cs⟩ = mount_point ++ "/" ++ ⟨cs⟩ := by
            rw [translate_w, hdropc]
            exact osPathJoin_mp_rel (startsWith_slash_of_head_ne h3)
          rw [htw, htc] at heq
          have hlen := congrArg (fun s => s.data.length) heq
          simp only [join_data, data_mk, List.length_cons] at hlen
          omega
    · intro h
      rw [translate_w_oneSep h, translate_c_oneSep h]

/-- C10 witness: the amended equivalence at a one-separator path (where the
translations agree) and at a two-separator path (where they differ). -/
theorem C10_witness :
    (("/etc" : String) ≠ "" ∧
      (translate_w "/etc" = translate_c "/etc" ↔ oneLeadingSep "/etc" = true)) ∧
    (("//etc" : String) ≠ "" ∧
      (translate_w "//etc" = translate_c "//etc" ↔ oneLeadingSep "//etc" = true)) :=
  ⟨⟨by decide, C10_amended "/etc" (by decide)⟩,
   ⟨by decide, C10_amended "//etc" (by decide)⟩⟩

end DockerCopy
